import Mathlib

/-!
# Verification of the evoxel voxel-grid core

Shallow embedding of the evoxel repository's core (crates `evoxel-core` and
`evoxel-transform`) and proofs about it.

Modelling conventions:
* A polars `DataFrame` of voxel rows is modelled row-wise: the mandatory
  integer index columns `x`, `y`, `z` are structural fields of each row, and
  every further column is an entry of `extraNames` with the per-row cells held
  positionally in `VoxelRow.extra`.
* `f64` quantities (the resolution and center-point coordinates) are modelled
  as exact rationals `ℚ`; every center-point computation in the source is a
  single product `resolution * (index as f64)`, so all equalities proved here
  compare syntactically identical floating-point expressions.
* `i64` index arithmetic is modelled on unbounded `Int`.
* Rust panics (`unwrap` on `None`) are modelled by `Option`-returning
  functions (`none` = the panicking branch), and `Result`-returning functions
  by `Except String`.
* The external `ecoord` reference-frame resolver and polars engine are out of
  scope of the repository; they are modelled at their interface boundary.
-/

namespace Evoxel

/-- A cell of a non-index column: polars scalar integers (e.g. the `count`
column) or list-valued cells as produced by `aggregate_by_index`'s `all()`
aggregation. -/
inductive CellValue where
  | int : Int → CellValue
  | list : List CellValue → CellValue

/-- One row of the voxel table: mandatory `x`, `y`, `z` index columns
(`i64` in the source) plus the cells of the non-index columns, positionally
aligned with `DataFrame.extraNames`. -/
structure VoxelRow where
  x : Int
  y : Int
  z : Int
  extra : List CellValue

/-- Row-wise model of the polars `DataFrame` held by a `VoxelGrid`:
the names of the non-index columns, and the rows. -/
structure DataFrame where
  extraNames : List String
  rows : List VoxelRow

/-- Model of `DataFrame::height`. -/
def DataFrame.height (df : DataFrame) : Nat := df.rows.length

/-- Structural well-formedness of the row-wise model: every row carries one
cell per non-index column (automatic for a columnar polars frame). -/
def DataFrame.wellformed (df : DataFrame) : Bool :=
  df.rows.all (fun r => r.extra.length == df.extraNames.length)

/-- Model of `VoxelGridInfo`: the grid metadata. The `f64` resolution is modelled as
an exact rational. -/
structure VoxelGridInfo where
  resolution : ℚ
  frame_id : String

/-- Model of `ecoord::TransformId`: ordered pair (target frame, source frame). -/
def TransformId := String × String

/-- An `ecoord` isometry, modelled as an affine map on rational 3-space:
three rotation rows and a translation. -/
structure Iso where
  r0 : ℚ × ℚ × ℚ
  r1 : ℚ × ℚ × ℚ
  r2 : ℚ × ℚ × ℚ
  t : ℚ × ℚ × ℚ

/-- Application of an isometry to a point (`isometry * point`). -/
def Iso.apply (iso : Iso) (p : ℚ × ℚ × ℚ) : ℚ × ℚ × ℚ :=
  (iso.r0.1 * p.1 + iso.r0.2.1 * p.2.1 + iso.r0.2.2 * p.2.2 + iso.t.1,
   iso.r1.1 * p.1 + iso.r1.2.1 * p.2.1 + iso.r1.2.2 * p.2.2 + iso.t.2.1,
   iso.r2.1 * p.1 + iso.r2.2.1 * p.2.1 + iso.r2.2.2 * p.2.2 + iso.t.2.2)

/-- The transform graph derived from the reference frames
(`ecoord`, external): resolves a `TransformId` to an isometry or fails. -/
structure TransformGraph where
  get_isometry : TransformId → Except String Iso

/-- Model of `ecoord::ReferenceFrames` (external) at its interface:
`derive_transform_graph` takes two optional timestamps and yields a
transform graph or fails. -/
structure ReferenceFrames where
  derive_transform_graph : Option Int → Option Int → Except String TransformGraph

/-- Model of `evoxel_core::VoxelGrid`. -/
structure VoxelGrid where
  voxel_data : DataFrame
  info : VoxelGridInfo
  reference_frames : ReferenceFrames

/-- Modelled from the spec: `data_frame_utils::check_data_integrity` is not
among the provided source files. Per spec §3/§7 it validates at every
construction that the index columns `x`, `y`, `z` exist with integer values
(structural in this embedding, together with `DataFrame.wellformed`) and that
`resolution > 0`. -/
def check_data_integrity (df : DataFrame) (info : VoxelGridInfo)
    (_frames : ReferenceFrames) : Except String Unit :=
  if info.resolution ≤ 0 then Except.error "IntegrityError: resolution"
  else if df.wellformed then Except.ok ()
  else Except.error "IntegrityError: columns"

/-- Model of `VoxelGrid::new`: the validated constructor. -/
def VoxelGrid.new (voxel_data : DataFrame) (info : VoxelGridInfo)
    (reference_frames : ReferenceFrames) : Except String VoxelGrid := do
  let _ ← check_data_integrity voxel_data info reference_frames
  Except.ok ⟨voxel_data, info, reference_frames⟩

/-- Model of `VoxelGrid::from_data_frame`: same body as `VoxelGrid::new`. -/
def VoxelGrid.from_data_frame (voxel_data : DataFrame) (info : VoxelGridInfo)
    (reference_frames : ReferenceFrames) : Except String VoxelGrid :=
  VoxelGrid.new voxel_data info reference_frames

/-- A grid that passed the validated constructor. -/
def Valid (g : VoxelGrid) : Prop :=
  check_data_integrity g.voxel_data g.info g.reference_frames = Except.ok ()

/-- Model of `VoxelGrid::size`: the height of the voxel table. -/
def VoxelGrid.size (g : VoxelGrid) : Nat := g.voxel_data.height

/-- Componentwise scaling of an integer index triple by the resolution:
`resolution * (index as f64)` on each coordinate, as in
`get_local_center_point`, `min_local_center_point` and
`max_local_center_point` (`Point3::new(..) * resolution` is the same
componentwise product). -/
def scalePoint (res : ℚ) (p : Int × Int × Int) : ℚ × ℚ × ℚ :=
  (res * p.1, res * p.2.1, res * p.2.2)

/-- Model of `VoxelGrid::min_index`. The source takes the polars `min()` of each of
the three index columns and `unwrap`s it; `min()` is `none` exactly on an
empty column, where the source panics — modelled by `Option`. -/
def VoxelGrid.min_index? (g : VoxelGrid) : Option (Int × Int × Int) := do
  let mx ← (g.voxel_data.rows.map VoxelRow.x).min?
  let my ← (g.voxel_data.rows.map VoxelRow.y).min?
  let mz ← (g.voxel_data.rows.map VoxelRow.z).min?
  pure (mx, my, mz)

/-- Model of `VoxelGrid::max_index`, analogously to `min_index`. -/
def VoxelGrid.max_index? (g : VoxelGrid) : Option (Int × Int × Int) := do
  let mx ← (g.voxel_data.rows.map VoxelRow.x).max?
  let my ← (g.voxel_data.rows.map VoxelRow.y).max?
  let mz ← (g.voxel_data.rows.map VoxelRow.z).max?
  pure (mx, my, mz)

/-- Model of `VoxelGrid::min_local_center_point`: the minimal index scaled
componentwise by the resolution. -/
def VoxelGrid.min_local_center_point? (g : VoxelGrid) : Option (ℚ × ℚ × ℚ) :=
  (g.min_index?).map (scalePoint g.info.resolution)

/-- Model of `VoxelGrid::max_local_center_point`. -/
def VoxelGrid.max_local_center_point? (g : VoxelGrid) : Option (ℚ × ℚ × ℚ) :=
  (g.max_index?).map (scalePoint g.info.resolution)

/-- Model of `VoxelGrid::get_cell_index`: random access to one row's index
triple. The source `unwrap`s the per-column `.get(row_index)`, which is
`none` exactly when `row_index` is out of bounds — modelled by `Option`. -/
def VoxelGrid.get_cell_index? (g : VoxelGrid) (row_index : Nat) :
    Option (Int × Int × Int) :=
  (g.voxel_data.rows.get? row_index).map (fun r => (r.x, r.y, r.z))

/-- Model of `VoxelGrid::get_local_frame_id`. -/
def VoxelGrid.get_local_frame_id (g : VoxelGrid) : String := g.info.frame_id

/-- Model of `VoxelGrid::get_local_center_point`: the cell index of the row scaled
componentwise by the resolution (partiality inherited from
`get_cell_index`). -/
def VoxelGrid.get_local_center_point? (g : VoxelGrid) (row_idx : Nat) :
    Option (ℚ × ℚ × ℚ) :=
  (g.get_cell_index? row_idx).map (scalePoint g.info.resolution)

/-- Model of `VoxelGrid::get_all_cell_indices_in_local_frame`: gathers the index
triple of every row `i` in `0..size` (the source's `.get(i).unwrap()` cannot
fail there since `i < size`; the `(0, 0, 0)` default of the model is
unreachable). -/
def VoxelGrid.get_all_cell_indices_in_local_frame (g : VoxelGrid) :
    List (Int × Int × Int) :=
  (List.range g.size).map (fun i =>
    match g.voxel_data.rows.get? i with
    | some r => (r.x, r.y, r.z)
    | none => (0, 0, 0))

/-- Model of `VoxelGrid::get_all_center_points_in_local_frame`: every gathered cell
index scaled componentwise by the resolution, in row order. -/
def VoxelGrid.get_all_center_points_in_local_frame (g : VoxelGrid) :
    List (ℚ × ℚ × ℚ) :=
  (g.get_all_cell_indices_in_local_frame).map (scalePoint g.info.resolution)

/-- The resolution step shared by `get_center_point` (and the extreme-point
queries): derive the transform graph, then look up the isometry for
`TransformId::new(frame_id, local_frame_id)`. -/
def VoxelGrid.resolveIso (g : VoxelGrid) (frame_id : String)
    (timestamp : Option Int) : Except String Iso := do
  let graph ← g.reference_frames.derive_transform_graph none timestamp
  graph.get_isometry (frame_id, g.get_local_frame_id)

/-- Model of `VoxelGrid::get_center_point`: the local center point of the row mapped
through the isometry resolved at `timestamp`. The outer `Option` is the
row-bounds partiality of `get_local_center_point`; the inner `Except` is the
fallible frame resolution. -/
def VoxelGrid.get_center_point? (g : VoxelGrid) (row_idx : Nat)
    (frame_id : String) (timestamp : Int) :
    Option (Except String (ℚ × ℚ × ℚ)) :=
  (g.get_local_center_point? row_idx).map (fun p =>
    (g.resolveIso frame_id (some timestamp)).map (fun iso => iso.apply p))

/-- Model of `VoxelGrid::get_all_center_points`: `get_center_point` applied to every
row `i` in `0..size`, collected through `Result` (first failure aborts the
whole batch). The `none` branch is unreachable since `i < size`. -/
def VoxelGrid.get_all_center_points (g : VoxelGrid) (frame_id : String)
    (timestamp : Int) : Except String (List (ℚ × ℚ × ℚ)) :=
  (List.range g.size).mapM (fun i =>
    match g.get_center_point? i frame_id timestamp with
    | some r => r
    | none => Except.error "panic: row index out of bounds")

/-! ## Transform operators (`evoxel-transform`) -/

/-- Per-row work of `translate`: the translation added componentwise to the
index columns of the row (the three `DataFrame::apply` calls). -/
def translateRow (t : Int × Int × Int) (r : VoxelRow) : VoxelRow :=
  { r with x := r.x + t.1, y := r.y + t.2.1, z := r.z + t.2.2 }

/-- Model of `translate`: adds the translation componentwise to every index
triple and rebuilds the grid via `from_data_frame` with `info` and
`reference_frames` carried over. The source `unwrap`s the constructor; for a
grid that passed validation the error branch is unreachable (the model
returns the input grid there in place of the panic). -/
def translate (g : VoxelGrid) (t : Int × Int × Int) : VoxelGrid :=
  let translated : DataFrame :=
    ⟨g.voxel_data.extraNames, g.voxel_data.rows.map (translateRow t)⟩
  match VoxelGrid.from_data_frame translated g.info g.reference_frames with
  | Except.ok g' => g'
  | Except.error _ => g

/-- Componentwise negation of a translation. -/
def neg3 (t : Int × Int × Int) : Int × Int × Int := (-t.1, -t.2.1, -t.2.2)

/-- The sequence of `(x, y, z)` index triples of a grid, in row order. -/
def indexTriples (g : VoxelGrid) : List (Int × Int × Int) :=
  g.voxel_data.rows.map (fun r => (r.x, r.y, r.z))

/-- Rust `minimum as i32`: two's-complement truncation of a `usize` to 32
bits, as performed by `filter_by_count` before the comparison. -/
def toI32 (m : Nat) : Int :=
  let r : Int := (m : Int) % 2 ^ 32
  if r < 2 ^ 31 then r else r - 2 ^ 32

/-- Position of the `count` column among the non-index columns
(`df.column("count")` succeeds exactly when this is `some`). -/
def countIdx? (df : DataFrame) : Option Nat :=
  df.extraNames.findIdx? (· == "count")

/-- The boolean mask `count >= minimum` built by `filter_by_count`
(`gt_eq` fails if a cell is not a scalar integer). -/
def countMask (j : Nat) (v : Int) (rows : List VoxelRow) :
    Except String (List Bool) :=
  rows.mapM (fun r =>
    match r.extra.get? j with
    | some (CellValue.int w) => Except.ok (decide (v ≤ w))
    | _ => Except.error "ComputeError: comparison type mismatch")

/-- Model of `DataFrame::filter`: keep the rows whose mask entry is `true`. -/
def applyMask (rows : List VoxelRow) (mask : List Bool) : List VoxelRow :=
  (rows.zip mask).filterMap (fun rb => if rb.2 then some rb.1 else none)

/-- Model of `filter_by_count`: builds the mask `count >= (minimum as i32)` over the
`count` column (failing if the column is missing), filters the rows by it,
and rebuilds the grid with `info` and `reference_frames` carried over. -/
def filter_by_count (g : VoxelGrid) (minimum : Nat) :
    Except String VoxelGrid := do
  let df := g.voxel_data
  match countIdx? df with
  | none => Except.error "ColumnNotFound: count"
  | some j => do
    let mask ← countMask j (toI32 minimum) df.rows
    VoxelGrid.new ⟨df.extraNames, applyMask df.rows mask⟩ g.info
      g.reference_frames

/-- nalgebra's `PartialOrd::ge` on `Point3<i64>`: componentwise `>=` on
**all** three coordinates (`lower_corner >= upper_corner` in
`filter_by_index_bounds`). -/
def pointGe (a b : Int × Int × Int) : Bool :=
  decide (b.1 ≤ a.1) && decide (b.2.1 ≤ a.2.1) && decide (b.2.2 ≤ a.2.2)

/-- One axis of the inclusive box predicate:
`col(axis).gt_eq(lo).and(col(axis).lt_eq(hi))`. -/
def inAxis (lo hi v : Int) : Bool := decide (lo ≤ v) && decide (v ≤ hi)

/-- Model of `filter_by_index_bounds`: rejects the corners when
`lower_corner >= upper_corner` (nalgebra's componentwise-all `ge`), else
applies the three sequential inclusive axis filters and rebuilds the grid. -/
def filter_by_index_bounds (g : VoxelGrid) (lower_corner upper_corner :
    Int × Int × Int) : Except String VoxelGrid :=
  if pointGe lower_corner upper_corner then
    Except.error "LowerCornerMustBeBelowUpperCorner"
  else
    let d1 := g.voxel_data.rows.filter
      (fun r => inAxis lower_corner.1 upper_corner.1 r.x)
    let d2 := d1.filter (fun r => inAxis lower_corner.2.1 upper_corner.2.1 r.y)
    let d3 := d2.filter (fun r => inAxis lower_corner.2.2 upper_corner.2.2 r.z)
    VoxelGrid.new ⟨g.voxel_data.extraNames, d3⟩ g.info g.reference_frames

/-- The grouping key of `aggregate_by_index`: the `(x, y, z)` triple. -/
def keyOf (r : VoxelRow) : Int × Int × Int := (r.x, r.y, r.z)

/-- The distinct grouping keys in first-occurrence order (polars `group_by`
does not guarantee an output order; the model fixes first-occurrence order,
and no theorem below depends on the order of groups). -/
def uniqueKeys (rows : List VoxelRow) : List (Int × Int × Int) :=
  rows.foldl (fun acc r => if keyOf r ∈ acc then acc else acc ++ [keyOf r]) []

/-- The cell of column `j` in a row (the default is unreachable on a
well-formed frame). -/
def cellAt (j : Nat) (r : VoxelRow) : CellValue :=
  r.extra.getD j (CellValue.int 0)

/-- One output row of `aggregate_by_index` for group key `k`: the key as
index columns, every non-index column of the group collected as a list
(`all()` in aggregation context), and the group's row count appended as the
`len()` column. -/
def aggRow (df : DataFrame) (k : Int × Int × Int) : VoxelRow :=
  let grp := df.rows.filter (fun r => decide (keyOf r = k))
  { x := k.1, y := k.2.1, z := k.2.2,
    extra := (List.range df.extraNames.length).map
        (fun j => CellValue.list (grp.map (cellAt j)))
      ++ [CellValue.int grp.length] }

/-- Model of `aggregate_by_index`: `group_by(x, y, z).agg([all(), len()])`. The
polars `len()` expression appends a column **named `len`** holding each
group's row count; `all()` collects every non-key column as a list. The
query fails with a duplicate-column error if the frame already has a `len`
column. -/
def aggregate_by_index (g : VoxelGrid) : Except String VoxelGrid :=
  let df := g.voxel_data
  if "len" ∈ df.extraNames then Except.error "Duplicate: len"
  else
    VoxelGrid.new ⟨df.extraNames ++ ["len"], (uniqueKeys df.rows).map (aggRow df)⟩
      g.info g.reference_frames

/-! ## Concrete fixtures used by witnesses and counterexamples -/

/-- A reference-frame graph with no resolvable path. -/
def framesTrivial : ReferenceFrames := ⟨fun _ _ => Except.error "no path"⟩

/-- The identity isometry. -/
def idIso : Iso := ⟨(1, 0, 0), (0, 1, 0), (0, 0, 1), (0, 0, 0)⟩

/-- A reference-frame graph resolving every transform to the identity. -/
def framesId : ReferenceFrames :=
  ⟨fun _ _ => Except.ok ⟨fun _ => Except.ok idIso⟩⟩

/-- Grid metadata with resolution 1 and local frame `"local"`. -/
def infoEx : VoxelGridInfo := ⟨1, "local"⟩

/-- An empty grid (zero rows, no extra columns). -/
def gEmpty : VoxelGrid := ⟨⟨[], []⟩, infoEx, framesTrivial⟩

/-- A grid with rows `(0,0,0)` and `(5,5,5)`, no extra columns. -/
def gTwo : VoxelGrid := ⟨⟨[], [⟨0, 0, 0, []⟩, ⟨5, 5, 5, []⟩]⟩, infoEx, framesTrivial⟩

/-- The grid of `gTwo` with the identity-resolving frame graph. -/
def gTwoId : VoxelGrid := ⟨⟨[], [⟨0, 0, 0, []⟩, ⟨5, 5, 5, []⟩]⟩, infoEx, framesId⟩

/-- A grid with a single row `(0,0,0)` carrying `count = 0`. -/
def gCount : VoxelGrid := ⟨⟨["count"], [⟨0, 0, 0, [CellValue.int 0]⟩]⟩, infoEx, framesTrivial⟩

/-- A grid with two duplicate rows `(0,0,0)` and no extra columns. -/
def gDup : VoxelGrid := ⟨⟨[], [⟨0, 0, 0, []⟩, ⟨0, 0, 0, []⟩]⟩, infoEx, framesTrivial⟩

/-! ## Helper lemmas -/

theorem int_min?_spec {l : List Int} {a : Int} (h : l.min? = some a) :
    a ∈ l ∧ ∀ b ∈ l, a ≤ b :=
  ⟨List.min?_mem (fun x y => min_choice x y) h,
   fun b hb => (List.le_min?_iff (fun _ _ _ => le_min_iff) h).1 (le_refl a) b hb⟩

theorem int_max?_spec {l : List Int} {a : Int} (h : l.max? = some a) :
    a ∈ l ∧ ∀ b ∈ l, b ≤ a :=
  ⟨List.max?_mem (fun x y => max_choice x y) h,
   fun b hb => (List.max?_le_iff (fun _ _ _ => max_le_iff) h).1 (le_refl a) b hb⟩

theorem exists_min?_of_ne_nil {l : List Int} (h : l ≠ []) :
    ∃ a, l.min? = some a := by
  cases hl : l.min? with
  | none => exact absurd (List.min?_eq_none_iff.mp hl) h
  | some a => exact ⟨a, rfl⟩

theorem exists_max?_of_ne_nil {l : List Int} (h : l ≠ []) :
    ∃ a, l.max? = some a := by
  cases hl : l.max? with
  | none => exact absurd (List.max?_eq_none_iff.mp hl) h
  | some a => exact ⟨a, rfl⟩

theorem valid_iff (g : VoxelGrid) :
    Valid g ↔ ¬ g.info.resolution ≤ 0 ∧ g.voxel_data.wellformed = true := by
  unfold Valid check_data_integrity
  constructor
  · intro h
    by_cases h1 : g.info.resolution ≤ 0
    · simp [h1] at h
    · by_cases h2 : g.voxel_data.wellformed
      · exact ⟨h1, h2⟩
      · simp [h1, h2] at h
  · rintro ⟨h1, h2⟩
    simp [h1, h2]

theorem new_ok {df : DataFrame} {info : VoxelGridInfo}
    {frames : ReferenceFrames}
    (h : check_data_integrity df info frames = Except.ok ()) :
    VoxelGrid.new df info frames = Except.ok ⟨df, info, frames⟩ := by
  unfold VoxelGrid.new
  rw [h]
  rfl

theorem check_ok_of_parts {df : DataFrame} {info : VoxelGridInfo}
    {frames : ReferenceFrames} (h1 : ¬ info.resolution ≤ 0)
    (h2 : df.wellformed = true) :
    check_data_integrity df info frames = Except.ok () := by
  simp [check_data_integrity, h1, h2]

theorem wellformed_filter (df : DataFrame) (p : VoxelRow → Bool)
    (h : df.wellformed = true) :
    DataFrame.wellformed ⟨df.extraNames, df.rows.filter p⟩ = true := by
  simp only [DataFrame.wellformed, List.all_eq_true] at h ⊢
  intro r hr
  exact h r (List.mem_filter.mp hr).1

theorem wellformed_map_translateRow (df : DataFrame) (t : Int × Int × Int)
    (h : df.wellformed = true) :
    DataFrame.wellformed ⟨df.extraNames, df.rows.map (translateRow t)⟩
      = true := by
  simp only [DataFrame.wellformed, List.all_eq_true, List.mem_map] at h ⊢
  rintro r ⟨r', hr', rfl⟩
  exact h r' hr'

/-! ## Claim theorems -/

/-- C4: for every valid grid with at least one row, `min_index` returns the
componentwise minimum of the `x`, `y`, `z` index columns over all rows and
`max_index` the componentwise maximum (each extreme is both a bound and
attained in its column); consequently `min_index ≤ max_index` componentwise,
and `min_local_center_point` / `max_local_center_point` equal the respective
extreme index scaled componentwise by the resolution. -/
theorem min_max_index_componentwise (g : VoxelGrid)
    (h : g.voxel_data.rows ≠ []) :
    ∃ mn mx : Int × Int × Int,
      g.min_index? = some mn ∧ g.max_index? = some mx ∧
      mn.1 ∈ g.voxel_data.rows.map VoxelRow.x ∧
      mn.2.1 ∈ g.voxel_data.rows.map VoxelRow.y ∧
      mn.2.2 ∈ g.voxel_data.rows.map VoxelRow.z ∧
      mx.1 ∈ g.voxel_data.rows.map VoxelRow.x ∧
      mx.2.1 ∈ g.voxel_data.rows.map VoxelRow.y ∧
      mx.2.2 ∈ g.voxel_data.rows.map VoxelRow.z ∧
      (∀ r ∈ g.voxel_data.rows,
        mn.1 ≤ r.x ∧ mn.2.1 ≤ r.y ∧ mn.2.2 ≤ r.z ∧
        r.x ≤ mx.1 ∧ r.y ≤ mx.2.1 ∧ r.z ≤ mx.2.2) ∧
      (mn.1 ≤ mx.1 ∧ mn.2.1 ≤ mx.2.1 ∧ mn.2.2 ≤ mx.2.2) ∧
      g.min_local_center_point? = some (scalePoint g.info.resolution mn) ∧
      g.max_local_center_point? = some (scalePoint g.info.resolution mx) := by
  have hx : g.voxel_data.rows.map VoxelRow.x ≠ [] := by simpa using h
  have hy : g.voxel_data.rows.map VoxelRow.y ≠ [] := by simpa using h
  have hz : g.voxel_data.rows.map VoxelRow.z ≠ [] := by simpa using h
  obtain ⟨n1, hn1⟩ := exists_min?_of_ne_nil hx
  obtain ⟨n2, hn2⟩ := exists_min?_of_ne_nil hy
  obtain ⟨n3, hn3⟩ := exists_min?_of_ne_nil hz
  obtain ⟨m1, hm1⟩ := exists_max?_of_ne_nil hx
  obtain ⟨m2, hm2⟩ := exists_max?_of_ne_nil hy
  obtain ⟨m3, hm3⟩ := exists_max?_of_ne_nil hz
  have hmin : g.min_index? = some (n1, n2, n3) := by
    simp [VoxelGrid.min_index?, hn1, hn2, hn3]
  have hmax : g.max_index? = some (m1, m2, m3) := by
    simp [VoxelGrid.max_index?, hm1, hm2, hm3]
  refine ⟨(n1, n2, n3), (m1, m2, m3), hmin, hmax,
    (int_min?_spec hn1).1, (int_min?_spec hn2).1, (int_min?_spec hn3).1,
    (int_max?_spec hm1).1, (int_max?_spec hm2).1, (int_max?_spec hm3).1,
    ?_, ⟨?_, ?_, ?_⟩, ?_, ?_⟩
  · intro r hr
    exact ⟨(int_min?_spec hn1).2 _ (List.mem_map_of_mem _ hr),
      (int_min?_spec hn2).2 _ (List.mem_map_of_mem _ hr),
      (int_min?_spec hn3).2 _ (List.mem_map_of_mem _ hr),
      (int_max?_spec hm1).2 _ (List.mem_map_of_mem _ hr),
      (int_max?_spec hm2).2 _ (List.mem_map_of_mem _ hr),
      (int_max?_spec hm3).2 _ (List.mem_map_of_mem _ hr)⟩
  · obtain ⟨r, hr, hre⟩ := List.mem_map.mp (int_min?_spec hn1).1
    exact hre ▸ (int_max?_spec hm1).2 _ (List.mem_map_of_mem _ hr)
  · obtain ⟨r, hr, hre⟩ := List.mem_map.mp (int_min?_spec hn2).1
    exact hre ▸ (int_max?_spec hm2).2 _ (List.mem_map_of_mem _ hr)
  · obtain ⟨r, hr, hre⟩ := List.mem_map.mp (int_min?_spec hn3).1
    exact hre ▸ (int_max?_spec hm3).2 _ (List.mem_map_of_mem _ hr)
  · simp [VoxelGrid.min_local_center_point?, hmin]
  · simp [VoxelGrid.max_local_center_point?, hmax]

/-- Witness for C4 at the grid with rows `(0,0,0)` and `(5,5,5)`. -/
theorem min_max_index_componentwise_witness :
    ∃ mn mx : Int × Int × Int,
      gTwo.min_index? = some mn ∧ gTwo.max_index? = some mx := by
  obtain ⟨mn, mx, h1, h2, -⟩ :=
    min_max_index_componentwise gTwo (List.cons_ne_nil _ _)
  exact ⟨mn, mx, h1, h2⟩

/-- C6: the bulk projection `get_all_center_points_in_local_frame` has one
entry per row and its `i`-th entry equals the single-row query
`get_local_center_point(i)` — the bulk and per-row computations agree and
row order is preserved. -/
theorem all_center_points_in_local_frame_agree (g : VoxelGrid) :
    g.get_all_center_points_in_local_frame.length = g.size ∧
    ∀ i, i < g.size →
      g.get_all_center_points_in_local_frame.get? i =
        g.get_local_center_point? i := by
  constructor
  · simp [VoxelGrid.get_all_center_points_in_local_frame,
      VoxelGrid.get_all_cell_indices_in_local_frame]
  · intro i hi
    have hr : g.voxel_data.rows[i]? = some (g.voxel_data.rows[i]) :=
      List.getElem?_eq_getElem hi
    simp [VoxelGrid.get_all_center_points_in_local_frame,
      VoxelGrid.get_all_cell_indices_in_local_frame,
      VoxelGrid.get_local_center_point?, VoxelGrid.get_cell_index?,
      List.getElem?_map, List.getElem?_range hi, hr]

/-- Witness for C6 at row 1 of the two-row grid. -/
theorem all_center_points_in_local_frame_agree_witness :
    gTwo.get_all_center_points_in_local_frame.get? 1 =
      gTwo.get_local_center_point? 1 :=
  (all_center_points_in_local_frame_agree gTwo).2 1 (by decide)

/-- C8: on a grid with zero rows, `min_index` / `max_index` and the local
center-point extremes derived from them do not return a value (the source's
`unwrap` of the column minimum panics there, modelled as `none`); under the
precondition of at least one row the failing branch is unreachable (the
queries always return a value). -/
theorem extremes_empty_grid (g : VoxelGrid) :
    (g.size = 0 →
      g.min_index? = none ∧ g.max_index? = none ∧
      g.min_local_center_point? = none ∧ g.max_local_center_point? = none) ∧
    (0 < g.size →
      (∃ v, g.min_index? = some v) ∧ (∃ v, g.max_index? = some v) ∧
      (∃ p, g.min_local_center_point? = some p) ∧
      (∃ p, g.max_local_center_point? = some p)) := by
  constructor
  · intro h0
    have hnil : g.voxel_data.rows = [] := List.length_eq_zero.mp h0
    simp [VoxelGrid.min_index?, VoxelGrid.max_index?,
      VoxelGrid.min_local_center_point?, VoxelGrid.max_local_center_point?,
      hnil]
  · intro hpos
    have hne : g.voxel_data.rows ≠ [] := List.length_pos.mp hpos
    have hx : g.voxel_data.rows.map VoxelRow.x ≠ [] := by simpa using hne
    have hy : g.voxel_data.rows.map VoxelRow.y ≠ [] := by simpa using hne
    have hz : g.voxel_data.rows.map VoxelRow.z ≠ [] := by simpa using hne
    obtain ⟨n1, hn1⟩ := exists_min?_of_ne_nil hx
    obtain ⟨n2, hn2⟩ := exists_min?_of_ne_nil hy
    obtain ⟨n3, hn3⟩ := exists_min?_of_ne_nil hz
    obtain ⟨m1, hm1⟩ := exists_max?_of_ne_nil hx
    obtain ⟨m2, hm2⟩ := exists_max?_of_ne_nil hy
    obtain ⟨m3, hm3⟩ := exists_max?_of_ne_nil hz
    have hmin : g.min_index? = some (n1, n2, n3) := by
      simp [VoxelGrid.min_index?, hn1, hn2, hn3]
    have hmax : g.max_index? = some (m1, m2, m3) := by
      simp [VoxelGrid.max_index?, hm1, hm2, hm3]
    refine ⟨⟨(n1, n2, n3), hmin⟩, ⟨(m1, m2, m3), hmax⟩,
      ⟨scalePoint g.info.resolution (n1, n2, n3), ?_⟩,
      ⟨scalePoint g.info.resolution (m1, m2, m3), ?_⟩⟩
    · simp [VoxelGrid.min_local_center_point?, hmin]
    · simp [VoxelGrid.max_local_center_point?, hmax]

/-- Witness for C8: both branches exercised, at the empty grid and at the
two-row grid. -/
theorem extremes_empty_grid_witness :
    gEmpty.min_index? = none ∧ (∃ v, gTwo.min_index? = some v) :=
  ⟨((extremes_empty_grid gEmpty).1 (by decide)).1,
   ((extremes_empty_grid gTwo).2 (by decide)).1⟩

/-- C9: on a grid without a `count` column, `filter_by_count` fails for
every minimum (including 0) with the column-not-found error propagated from
the tabular store. -/
theorem filter_by_count_missing_count_column (g : VoxelGrid) (m : Nat)
    (h : "count" ∉ g.voxel_data.extraNames) :
    filter_by_count g m = Except.error "ColumnNotFound: count" := by
  have hidx : countIdx? g.voxel_data = none := by
    apply List.findIdx?_eq_none_iff.mpr
    intro s hs
    exact beq_eq_false_iff_ne.mpr (fun hc => h (hc ▸ hs))
  simp [filter_by_count, hidx]

/-- Witness for C9 at the count-less two-row grid with `minimum = 0`. -/
theorem filter_by_count_missing_count_column_witness :
    filter_by_count gTwo 0 = Except.error "ColumnNotFound: count" :=
  filter_by_count_missing_count_column gTwo 0 (by decide)

/-- C10: `get_cell_index` (and therefore `get_local_center_point` and
`get_center_point`) is defined exactly under the precondition
`row < row_count`: in bounds every query returns a value, out of bounds the
column access yields no value (the source's `unwrap` panics, modelled as
`none`). -/
theorem cell_index_defined_iff_in_bounds (g : VoxelGrid) (i : Nat) :
    (i < g.size →
      (g.get_cell_index? i).isSome = true ∧
      (g.get_local_center_point? i).isSome = true ∧
      ∀ fid ts, (g.get_center_point? i fid ts).isSome = true) ∧
    (g.size ≤ i →
      g.get_cell_index? i = none ∧ g.get_local_center_point? i = none ∧
      ∀ fid ts, g.get_center_point? i fid ts = none) := by
  constructor
  · intro hi
    have hr : g.voxel_data.rows[i]? = some (g.voxel_data.rows[i]) :=
      List.getElem?_eq_getElem hi
    refine ⟨?_, ?_, fun fid ts => ?_⟩ <;>
      simp [VoxelGrid.get_cell_index?, VoxelGrid.get_local_center_point?,
        VoxelGrid.get_center_point?, hr]
  · intro hi
    have hr : g.voxel_data.rows[i]? = none := by
      simp only [List.getElem?_eq_none_iff]
      exact hi
    simp [VoxelGrid.get_cell_index?, VoxelGrid.get_local_center_point?,
      VoxelGrid.get_center_point?, hr]

/-- Witness for C10: in-bounds and out-of-bounds accesses on the two-row
grid. -/
theorem cell_index_defined_iff_in_bounds_witness :
    (gTwo.get_cell_index? 0).isSome = true ∧ gTwo.get_cell_index? 2 = none :=
  ⟨((cell_index_defined_iff_in_bounds gTwo 0).1 (by decide)).1,
   ((cell_index_defined_iff_in_bounds gTwo 2).2 (by decide)).1⟩

theorem translate_eq (g : VoxelGrid) (t : Int × Int × Int) (hg : Valid g) :
    translate g t =
      ⟨⟨g.voxel_data.extraNames, g.voxel_data.rows.map (translateRow t)⟩,
        g.info, g.reference_frames⟩ := by
  obtain ⟨h1, h2⟩ := (valid_iff g).mp hg
  have hok : VoxelGrid.from_data_frame
      ⟨g.voxel_data.extraNames, g.voxel_data.rows.map (translateRow t)⟩
      g.info g.reference_frames =
      Except.ok ⟨⟨g.voxel_data.extraNames,
        g.voxel_data.rows.map (translateRow t)⟩, g.info, g.reference_frames⟩ :=
    new_ok (check_ok_of_parts h1 (wellformed_map_translateRow _ t h2))
  simp only [translate]
  rw [hok]

theorem valid_translate (g : VoxelGrid) (t : Int × Int × Int)
    (hg : Valid g) : Valid (translate g t) := by
  rw [translate_eq g t hg]
  obtain ⟨h1, h2⟩ := (valid_iff g).mp hg
  exact (valid_iff _).mpr ⟨h1, wellformed_map_translateRow _ t h2⟩

/-- C5: for every valid grid and translation `d`, translating by `d` and
then by `-d` yields a grid whose multiset of `(x,y,z)` index triples equals
that of the original, `translate` adding its delta componentwise to every
row's index triple. -/
theorem translate_round_trip (g : VoxelGrid) (d : Int × Int × Int)
    (hg : Valid g) :
    (↑(indexTriples (translate (translate g d) (neg3 d))) :
        Multiset (Int × Int × Int)) = ↑(indexTriples g) := by
  rw [translate_eq (translate g d) (neg3 d) (valid_translate g d hg),
    translate_eq g d hg]
  apply congrArg
  simp only [indexTriples, List.map_map]
  apply List.map_congr_left
  intro r _
  simp [translateRow, neg3, Function.comp]

/-- Witness for C5 at the two-row grid with `d = (1, 2, 3)`. -/
theorem translate_round_trip_witness :
    (↑(indexTriples (translate (translate gTwo (1, 2, 3)) (neg3 (1, 2, 3)))) :
        Multiset (Int × Int × Int)) = ↑(indexTriples gTwo) :=
  translate_round_trip gTwo (1, 2, 3) (by rfl)

/-- C1 counterexample: with `lower = (0,0,0)` and `upper = (1,1,0)` the z
axis is tied (`0 ≥ 0`), so the claim demands an immediate `OrderError`; but
the source's single aggregate comparison `lower_corner >= upper_corner`
(nalgebra's componentwise-**all** `ge`) is false because x and y are
strictly below, so the call succeeds. -/
theorem filter_by_index_bounds_axis_tie_succeeds :
    ∃ g', filter_by_index_bounds gTwo (0, 0, 0) (1, 1, 0) =
      Except.ok g' := by
  refine ⟨⟨⟨[], [⟨0, 0, 0, []⟩]⟩, infoEx, framesTrivial⟩, ?_⟩
  rfl

/-- C1 (amended): `filter_by_index_bounds` fails with `OrderError` exactly
when `lower_i ≥ upper_i` holds on **all** three axes simultaneously (the
aggregate nalgebra `>=`); in particular equal corners such as
`(2,2,2), (2,2,2)` fail. Otherwise it succeeds and retains exactly the rows
whose index triple lies in the inclusive box
`lower_i ≤ idx_i ≤ upper_i` on every axis. -/
theorem filter_by_index_bounds_spec (g : VoxelGrid)
    (lower upper : Int × Int × Int) (hg : Valid g) :
    (pointGe lower upper = true →
      filter_by_index_bounds g lower upper =
        Except.error "LowerCornerMustBeBelowUpperCorner") ∧
    (pointGe lower upper = false →
      ∃ g', filter_by_index_bounds g lower upper = Except.ok g' ∧
        g'.voxel_data.rows = g.voxel_data.rows.filter (fun r =>
          inAxis lower.1 upper.1 r.x && inAxis lower.2.1 upper.2.1 r.y &&
            inAxis lower.2.2 upper.2.2 r.z) ∧
        g'.voxel_data.extraNames = g.voxel_data.extraNames ∧
        g'.info = g.info ∧ g'.reference_frames = g.reference_frames) := by
  obtain ⟨h1, h2⟩ := (valid_iff g).mp hg
  constructor
  · intro hge
    simp [filter_by_index_bounds, hge]
  · intro hge
    have hpred : ∀ r : VoxelRow,
        (inAxis lower.2.2 upper.2.2 r.z &&
          (inAxis lower.2.1 upper.2.1 r.y && inAxis lower.1 upper.1 r.x)) =
        (inAxis lower.1 upper.1 r.x && inAxis lower.2.1 upper.2.1 r.y &&
          inAxis lower.2.2 upper.2.2 r.z) := by
      intro r
      cases inAxis lower.1 upper.1 r.x <;>
        cases inAxis lower.2.1 upper.2.1 r.y <;>
        cases inAxis lower.2.2 upper.2.2 r.z <;> rfl
    have hok : VoxelGrid.new
        ⟨g.voxel_data.extraNames, g.voxel_data.rows.filter (fun r =>
          inAxis lower.1 upper.1 r.x && inAxis lower.2.1 upper.2.1 r.y &&
            inAxis lower.2.2 upper.2.2 r.z)⟩ g.info g.reference_frames =
        Except.ok ⟨⟨g.voxel_data.extraNames, g.voxel_data.rows.filter
          (fun r => inAxis lower.1 upper.1 r.x &&
            inAxis lower.2.1 upper.2.1 r.y &&
            inAxis lower.2.2 upper.2.2 r.z)⟩, g.info, g.reference_frames⟩ :=
      new_ok (check_ok_of_parts h1 (wellformed_filter _ _ h2))
    refine ⟨⟨⟨g.voxel_data.extraNames, g.voxel_data.rows.filter (fun r =>
      inAxis lower.1 upper.1 r.x && inAxis lower.2.1 upper.2.1 r.y &&
        inAxis lower.2.2 upper.2.2 r.z)⟩, g.info, g.reference_frames⟩,
      ?_, rfl, rfl, rfl, rfl⟩
    unfold filter_by_index_bounds
    rw [hge]
    simp only [Bool.false_eq_true, if_false, List.filter_filter]
    rw [List.filter_congr (fun r _ => hpred r)]
    exact hok

/-- Witness for C1 at the concrete scenario `lower = upper = (2,2,2)` (all
axes tied, so the aggregate `>=` holds and the call fails). -/
theorem filter_by_index_bounds_spec_witness :
    filter_by_index_bounds gTwo (2, 2, 2) (2, 2, 2) =
      Except.error "LowerCornerMustBeBelowUpperCorner" :=
  (filter_by_index_bounds_spec gTwo (2, 2, 2) (2, 2, 2) (by rfl)).1
    (by decide)

theorem countMask_applyMask (j : Nat) (v : Int) (rows : List VoxelRow)
    (hint : ∀ r ∈ rows, ∃ w, r.extra.get? j = some (CellValue.int w)) :
    ∃ mask, countMask j v rows = Except.ok mask ∧
      applyMask rows mask = rows.filter (fun r =>
        match r.extra.get? j with
        | some (CellValue.int w) => decide (v ≤ w)
        | _ => false) := by
  induction rows with
  | nil => exact ⟨[], rfl, rfl⟩
  | cons r rs ih =>
    obtain ⟨w, hw⟩ := hint r (List.mem_cons_self r rs)
    obtain ⟨mask, hmask, happ⟩ :=
      ih (fun r' hr' => hint r' (List.mem_cons_of_mem _ hr'))
    refine ⟨decide (v ≤ w) :: mask, ?_, ?_⟩
    · simp only [countMask, List.mapM_cons] at hmask ⊢
      rw [hw]
      simp only [hmask]
      rfl
    · simp only [applyMask, List.zip_cons_cons, List.filterMap_cons] at happ ⊢
      rw [List.filter_cons, hw]
      cases hvw : decide (v ≤ w) <;> simp [happ, hvw]

/-- C3 counterexample: the source compares against `minimum as i32`; with
`minimum = 2^31` the cast wraps to `-2^31`, so the row with `count = 0` is
retained although `0 ≥ 2^31` is false, contradicting "retains exactly the
rows whose count is ≥ m" at this input. -/
theorem filter_by_count_wrap_retains_row :
    ∃ g', filter_by_count gCount 2147483648 = Except.ok g' ∧
      g'.voxel_data.rows = [⟨0, 0, 0, [CellValue.int 0]⟩] := by
  refine ⟨⟨⟨["count"], [⟨0, 0, 0, [CellValue.int 0]⟩]⟩, infoEx,
    framesTrivial⟩, ?_, rfl⟩
  rfl

/-- C3 (amended): for every valid grid whose `count` column exists and
holds scalar integers, `filter_by_count(g, m)` succeeds and retains exactly
the rows whose `count` is `≥` the two's-complement truncation of `m` to 32
bits (Rust `minimum as i32`); for `m = 0` and non-negative counts it is the
identity. (On a grid without a `count` column the call fails — see C9.) -/
theorem filter_by_count_spec (g : VoxelGrid) (m : Nat) (j : Nat)
    (hg : Valid g) (hj : countIdx? g.voxel_data = some j)
    (hint : ∀ r ∈ g.voxel_data.rows,
      ∃ v, r.extra.get? j = some (CellValue.int v)) :
    ∃ g', filter_by_count g m = Except.ok g' ∧
      g'.voxel_data.rows = g.voxel_data.rows.filter (fun r =>
        match r.extra.get? j with
        | some (CellValue.int v) => decide (toI32 m ≤ v)
        | _ => false) ∧
      g'.voxel_data.extraNames = g.voxel_data.extraNames ∧
      g'.info = g.info ∧ g'.reference_frames = g.reference_frames ∧
      (m = 0 → (∀ r ∈ g.voxel_data.rows, ∀ v,
          r.extra.get? j = some (CellValue.int v) → 0 ≤ v) → g' = g) := by
  obtain ⟨h1, h2⟩ := (valid_iff g).mp hg
  obtain ⟨mask, hmask, happ⟩ := countMask_applyMask j (toI32 m)
    g.voxel_data.rows hint
  have hok : VoxelGrid.new ⟨g.voxel_data.extraNames,
      applyMask g.voxel_data.rows mask⟩ g.info g.reference_frames =
      Except.ok ⟨⟨g.voxel_data.extraNames,
        applyMask g.voxel_data.rows mask⟩, g.info, g.reference_frames⟩ := by
    apply new_ok
    apply check_ok_of_parts h1
    rw [happ]
    exact wellformed_filter _ _ h2
  refine ⟨⟨⟨g.voxel_data.extraNames, applyMask g.voxel_data.rows mask⟩,
    g.info, g.reference_frames⟩, ?_, happ, rfl, rfl, rfl, ?_⟩
  · simp only [filter_by_count]
    rw [hj]
    simp only [hmask]
    rw [show (Except.ok mask >>= fun mask =>
      VoxelGrid.new ⟨g.voxel_data.extraNames,
        applyMask g.voxel_data.rows mask⟩ g.info g.reference_frames :
      Except String VoxelGrid) = VoxelGrid.new ⟨g.voxel_data.extraNames,
        applyMask g.voxel_data.rows mask⟩ g.info g.reference_frames from rfl]
    exact hok
  · intro hm h0
    have hall : g.voxel_data.rows.filter (fun r =>
        match r.extra.get? j with
        | some (CellValue.int v) => decide (toI32 m ≤ v)
        | _ => false) = g.voxel_data.rows := by
      apply List.filter_eq_self.mpr
      intro r hr
      obtain ⟨v, hv⟩ := hint r hr
      rw [hv]
      have : (0 : Int) ≤ v := h0 r hr v hv
      subst hm
      simpa [toI32] using this
    have : applyMask g.voxel_data.rows mask = g.voxel_data.rows := by
      rw [happ, hall]
    rw [this]

/-- Witness for C3: `minimum = 0` on the single-row grid with `count = 0`
is the identity. -/
theorem filter_by_count_spec_witness :
    ∃ g', filter_by_count gCount 0 = Except.ok g' ∧ g' = gCount := by
  obtain ⟨g', hrun, -, -, -, -, hid⟩ :=
    filter_by_count_spec gCount 0 0 (by rfl) (by rfl)
      (fun r hr => by
        have h := List.mem_singleton.mp hr
        subst h
        exact ⟨0, rfl⟩)
  refine ⟨g', hrun, hid rfl ?_⟩
  intro r hr v hv
  have h := List.mem_singleton.mp hr
  subst h
  simp only [List.get?] at hv
  cases hv
  exact le_refl 0

/-- C2 (evaluation at the failing input): aggregating the grid with two raw
rows `(0,0,0)` and no pre-existing count column yields exactly one row
`(0,0,0)` whose group row-count 2 is stored in a column named `len` —
the output name of the polars `len()` expression — and the result has **no**
column named `count`, although the repository's own
`VoxelDataColumnType::Count` constant and `filter_by_count` consume a
column named `count`. -/
theorem aggregate_by_index_len_not_count :
    ∃ g', aggregate_by_index gDup = Except.ok g' ∧
      g'.voxel_data.extraNames = ["len"] ∧
      g'.voxel_data.rows = [⟨0, 0, 0, [CellValue.int 2]⟩] ∧
      "count" ∉ g'.voxel_data.extraNames := by
  refine ⟨⟨⟨["len"], [⟨0, 0, 0, [CellValue.int 2]⟩]⟩, infoEx,
    framesTrivial⟩, ?_, rfl, rfl, by decide⟩
  rfl

theorem mapM_ok_of_forall {α β : Type} (f : α → Except String β)
    (v : α → β) (l : List α) (h : ∀ a ∈ l, f a = Except.ok (v a)) :
    l.mapM f = Except.ok (l.map v) := by
  induction l with
  | nil => rfl
  | cons a as ih =>
    rw [List.mapM_cons, h a (List.mem_cons_self a as),
      ih (fun b hb => h b (List.mem_cons_of_mem _ hb))]
    rfl

theorem mapM_error_of_forall {α β : Type} (f : α → Except String β)
    (e : String) (l : List α) (hne : l ≠ [])
    (h : ∀ a ∈ l, f a = Except.error e) :
    l.mapM f = Except.error e := by
  cases l with
  | nil => exact absurd rfl hne
  | cons a as =>
    rw [List.mapM_cons, h a (List.mem_cons_self a as)]
    rfl

/-- C7: `get_all_center_points` returns the sequence obtained by applying
`get_center_point` to every row in row order when every per-row resolution
succeeds, and returns an error with no partial results as soon as any row's
resolution fails. -/
theorem get_all_center_points_all_or_nothing (g : VoxelGrid)
    (fid : String) (ts : Int) :
    ((∀ i, i < g.size →
        ∃ p, g.get_center_point? i fid ts = some (Except.ok p)) →
      ∃ ps, g.get_all_center_points fid ts = Except.ok ps ∧
        ps.length = g.size ∧
        ∀ i, i < g.size → ∃ p, ps.get? i = some p ∧
          g.get_center_point? i fid ts = some (Except.ok p)) ∧
    (∀ i e, i < g.size →
      g.get_center_point? i fid ts = some (Except.error e) →
      g.get_all_center_points fid ts = Except.error e) := by
  constructor
  · intro h
    classical
    let v : Nat → ℚ × ℚ × ℚ := fun i =>
      if hi : i < g.size then (h i hi).choose else 0
    have hv : ∀ i, i < g.size →
        g.get_center_point? i fid ts = some (Except.ok (v i)) := by
      intro i hi
      simpa [v, hi] using (h i hi).choose_spec
    refine ⟨(List.range g.size).map v, ?_, by simp, ?_⟩
    · unfold VoxelGrid.get_all_center_points
      apply mapM_ok_of_forall
      intro i hi
      rw [hv i (List.mem_range.mp hi)]
    · intro i hi
      refine ⟨v i, ?_, hv i hi⟩
      simp [List.get?_eq_getElem?, List.getElem?_map, List.getElem?_range hi]
  · intro i e hi he
    have hr : g.voxel_data.rows[i]? = some (g.voxel_data.rows[i]) :=
      List.getElem?_eq_getElem hi
    have hex : g.get_center_point? i fid ts =
        some ((g.resolveIso fid (some ts)).map (fun iso =>
          iso.apply (scalePoint g.info.resolution
            (g.voxel_data.rows[i].x, g.voxel_data.rows[i].y,
              g.voxel_data.rows[i].z)))) := by
      simp [VoxelGrid.get_center_point?, VoxelGrid.get_local_center_point?,
        VoxelGrid.get_cell_index?, List.get?_eq_getElem?, hr]
    rw [hex] at he
    have he2 := Option.some.inj he
    have hres : g.resolveIso fid (some ts) = Except.error e := by
      cases hr2 : g.resolveIso fid (some ts) with
      | ok a => rw [hr2] at he2; simp [Except.map] at he2
      | error e' =>
        rw [hr2] at he2
        simp only [Except.map] at he2
        cases he2
        rfl
    have hall : ∀ k, k < g.size →
        g.get_center_point? k fid ts = some (Except.error e) := by
      intro k hk
      have hrk : g.voxel_data.rows[k]? = some (g.voxel_data.rows[k]) :=
        List.getElem?_eq_getElem hk
      simp [VoxelGrid.get_center_point?, VoxelGrid.get_local_center_point?,
        VoxelGrid.get_cell_index?, hrk, hres, Except.map]
    unfold VoxelGrid.get_all_center_points
    apply mapM_error_of_forall
    · intro hc
      rw [List.range_eq_nil] at hc
      omega
    · intro k hk
      rw [hall k (List.mem_range.mp hk)]

/-- Witness for C7: on a one-relevant-grid with an identity-resolving frame
graph every per-row resolution succeeds, and the bulk query returns the
per-row center points in order. -/
theorem get_all_center_points_all_or_nothing_witness :
    ∃ ps, gTwoId.get_all_center_points "world" 0 = Except.ok ps ∧
      ps.length = gTwoId.size := by
  obtain ⟨ps, h1, h2, -⟩ :=
    (get_all_center_points_all_or_nothing gTwoId "world" 0).1
      (fun i hi => by
        have hi2 : i < 2 := hi
        clear hi
        interval_cases i
        · exact ⟨_, rfl⟩
        · exact ⟨_, rfl⟩)
  exact ⟨ps, h1, h2⟩

end Evoxel
